import Mathlib

/-!
Verification of the USB-Sentry progressive trust framework.

Shallow embedding of `usb_sentry/core/trust.py`, `usb_sentry/core/policy.py`
and the promotion gate of `usb_sentry/main.py`.  Timestamps and megabyte
counts are rationals (Python `datetime` differences in seconds, `float`
sums of small decimals); Python dicts become association lists in insertion
order with unique keys.
-/

namespace USBSentry

/-- `TrustState` enum from `core/trust.py`. -/
inductive TrustState where
  | DETECTED
  | UNAUTHORIZED
  | MONITORED
  | AUTHORIZED
  | SUSPICIOUS
  | BLOCKED
deriving DecidableEq, Repr

/-- `PolicyAction` enum from `core/policy.py`. -/
inductive PolicyAction where
  | ALLOW
  | BLOCK
  | ALERT
deriving DecidableEq, Repr

/-- `DeviceType` enum from `core/events.py` (the fields the claims touch). -/
inductive DeviceType where
  | STORAGE
  | HID
  | NETWORK
  | OTHER
deriving DecidableEq, Repr

/-- `USBDevice` dataclass from `core/events.py`. -/
structure USBDevice where
  device_path : String
  vendor_id : Option String := none
  product_id : Option String := none
  serial_number : Option String := none
  manufacturer : Option String := none
  product_name : Option String := none
  device_type : DeviceType := DeviceType.OTHER
  mount_point : Option String := none
deriving DecidableEq, Repr

/-- `USBDevice.get_id`: `":".join([vendor_id or "0000", product_id or "0000",
serial_number or "NOSERIAL"])`. -/
def USBDevice.get_id (d : USBDevice) : String :=
  (d.vendor_id.getD "0000") ++ ":" ++ (d.product_id.getD "0000") ++ ":"
    ++ (d.serial_number.getD "NOSERIAL")

/-- `DeviceTrustState` dataclass from `core/trust.py`: per-device trust record. -/
structure DeviceTrustState where
  device_id : String
  state : TrustState := TrustState.UNAUTHORIZED
  first_seen : ℚ
  last_seen : ℚ
  files_accessed : ℕ := 0
  data_transferred_mb : ℚ := 0
  suspicious_events : ℕ := 0
  window_start : ℚ
  window_files : ℕ := 0
  executable_detected : Bool := false
deriving DecidableEq, Repr

/-- Class constant `MAX_FILES_PER_MIN = 10`. -/
def MAX_FILES_PER_MIN : ℕ := 10

/-- Class constant `MAX_DATA_MB = 100.0`. -/
def MAX_DATA_MB : ℚ := 100

/-- Class constant `PROMOTION_TIME_MIN = 0.5` (minutes). -/
def PROMOTION_TIME_MIN : ℚ := 1 / 2

/-- Fresh record construction `DeviceTrustState(device_id=..., state=...)` with
the dataclass field defaults, taken at time `now`. -/
def DeviceTrustState.create (id : String) (st : TrustState) (now : ℚ) :
    DeviceTrustState :=
  { device_id := id, state := st, first_seen := now, last_seen := now,
    window_start := now }

/-- `DeviceTrustState.log_activity`: update `last_seen`, bump counters, latch
the executable flag, reset the one-minute window when more than 60 s elapsed,
then count the file into the window. -/
def DeviceTrustState.log_activity (d : DeviceTrustState) (now size_mb : ℚ)
    (is_executable : Bool) : DeviceTrustState :=
  let d1 := { d with last_seen := now,
                     files_accessed := d.files_accessed + 1,
                     data_transferred_mb := d.data_transferred_mb + size_mb,
                     executable_detected := d.executable_detected || is_executable }
  let d2 := if now - d1.window_start > 60 then
              { d1 with window_start := now, window_files := 0 }
            else d1
  { d2 with window_files := d2.window_files + 1 }

/-- `DeviceTrustState.evaluate`: escalation checks (executable, window rate,
data volume) in order, then time-based promotion for `MONITORED` records;
returns the new state together with the mutated record. -/
def DeviceTrustState.evaluate (d : DeviceTrustState) (now : ℚ) :
    TrustState × DeviceTrustState :=
  if d.executable_detected then
    (TrustState.SUSPICIOUS, { d with state := TrustState.SUSPICIOUS })
  else if d.window_files > MAX_FILES_PER_MIN then
    (TrustState.SUSPICIOUS, { d with state := TrustState.SUSPICIOUS })
  else if d.data_transferred_mb > MAX_DATA_MB then
    (TrustState.SUSPICIOUS, { d with state := TrustState.SUSPICIOUS })
  else if d.state = TrustState.MONITORED then
    if now - d.first_seen > 60 * PROMOTION_TIME_MIN then
      (TrustState.AUTHORIZED, { d with state := TrustState.AUTHORIZED })
    else (d.state, d)
  else (d.state, d)

/-- First-match lookup in the ledger association list (Python dict access;
keys are unique in any dict, so first match is the match). -/
def findDevice : List (String × DeviceTrustState) → String →
    Option DeviceTrustState
  | [], _ => none
  | (k, d) :: rest, id => if k = id then some d else findDevice rest id

/-- Replace the value bound to `id` (first match; Python dict item mutation). -/
def setDevice : List (String × DeviceTrustState) → String → DeviceTrustState →
    List (String × DeviceTrustState)
  | [], _, _ => []
  | (k, v) :: rest, id, d =>
      if k = id then (k, d) :: rest else (k, v) :: setDevice rest id d

/-- `TrustManager` from `core/trust.py`: the trust ledger, a dict keyed by
device identifier in insertion order. -/
structure TrustManager where
  devices : List (String × DeviceTrustState) := []
deriving DecidableEq, Repr

/-- `TrustManager.register_device`: create a record only when the identifier
has none (`if device_id not in self.devices`). -/
def TrustManager.register_device (tm : TrustManager) (id : String)
    (initial_state : TrustState) (now : ℚ) : TrustManager :=
  match findDevice tm.devices id with
  | some _ => tm
  | none =>
      { devices := tm.devices ++ [(id, DeviceTrustState.create id initial_state now)] }

/-- `TrustManager.update_state`: overwrite the state of an existing record,
no-op when absent. -/
def TrustManager.update_state (tm : TrustManager) (id : String)
    (new_state : TrustState) : TrustManager :=
  match findDevice tm.devices id with
  | none => tm
  | some d => { devices := setDevice tm.devices id { d with state := new_state } }

/-- `TrustManager.get_state`: the record's state, or `UNAUTHORIZED` when the
identifier has no record. -/
def TrustManager.get_state (tm : TrustManager) (id : String) : TrustState :=
  match findDevice tm.devices id with
  | some d => d.state
  | none => TrustState.UNAUTHORIZED

/-- `TrustManager.report_activity`: `UNAUTHORIZED` and no change for unknown
identifiers; `BLOCKED` and no change for blocked records; otherwise log the
activity and re-evaluate. -/
def TrustManager.report_activity (tm : TrustManager) (id : String)
    (now size_mb : ℚ) (is_executable : Bool) : TrustState × TrustManager :=
  match findDevice tm.devices id with
  | none => (TrustState.UNAUTHORIZED, tm)
  | some d =>
      if d.state = TrustState.BLOCKED then (TrustState.BLOCKED, tm)
      else
        let r := (d.log_activity now size_mb is_executable).evaluate now
        (r.1, { devices := setDevice tm.devices id r.2 })

/-- The loop body of `TrustManager.check_idle_promotions` over the ledger
list: re-evaluate every `MONITORED` record and collect the identifiers whose
evaluation came back `AUTHORIZED`. -/
def sweepList : List (String × DeviceTrustState) → ℚ →
    List String × List (String × DeviceTrustState)
  | [], _ => ([], [])
  | (k, d) :: rest, now =>
      if d.state = TrustState.MONITORED then
        let r := d.evaluate now
        let tail := sweepList rest now
        (if r.1 = TrustState.AUTHORIZED then k :: tail.1 else tail.1,
         (k, r.2) :: tail.2)
      else
        let tail := sweepList rest now
        (tail.1, (k, d) :: tail.2)

/-- `TrustManager.check_idle_promotions`. -/
def TrustManager.check_idle_promotions (tm : TrustManager) (now : ℚ) :
    List String × TrustManager :=
  let r := sweepList tm.devices now
  (r.1, { devices := r.2 })

/-- `PolicyEngine` from `core/policy.py` (the persistent-file plumbing of
`load_policy`/`_save_policy` carries no policy-decision state). -/
structure PolicyEngine where
  allowlist : List String := []
  blocklist : List String := []
  default_action : PolicyAction := PolicyAction.BLOCK
  trust_manager : TrustManager := {}
deriving DecidableEq, Repr

/-- `PolicyEngine.evaluate`: blocklist, then allowlist, then the trust-state
dispatch; the configured default action is the final fallback. -/
def PolicyEngine.evaluate (pe : PolicyEngine) (device : USBDevice) (now : ℚ) :
    PolicyAction × PolicyEngine :=
  let device_id := device.get_id
  if device_id ∈ pe.blocklist then (PolicyAction.BLOCK, pe)
  else if device_id ∈ pe.allowlist then (PolicyAction.ALLOW, pe)
  else
    let current_state := pe.trust_manager.get_state device_id
    if current_state = TrustState.UNAUTHORIZED then
      (PolicyAction.ALLOW,
       { pe with trust_manager :=
           pe.trust_manager.register_device device_id TrustState.MONITORED now })
    else if current_state = TrustState.MONITORED then (PolicyAction.ALLOW, pe)
    else if current_state = TrustState.AUTHORIZED then (PolicyAction.ALLOW, pe)
    else if current_state = TrustState.SUSPICIOUS ∨
            current_state = TrustState.BLOCKED then (PolicyAction.BLOCK, pe)
    else (pe.default_action, pe)

/-- `PolicyEngine.add_to_allowlist`: append the identifier when absent
(`_save_policy` only writes the file). -/
def PolicyEngine.add_to_allowlist (pe : PolicyEngine) (device : USBDevice) :
    PolicyEngine :=
  let device_id := device.get_id
  if device_id ∈ pe.allowlist then pe
  else { pe with allowlist := pe.allowlist ++ [device_id] }

/-- `PolicyEngine.add_to_blocklist`: append the identifier when absent. -/
def PolicyEngine.add_to_blocklist (pe : PolicyEngine) (device : USBDevice) :
    PolicyEngine :=
  let device_id := device.get_id
  if device_id ∈ pe.blocklist then pe
  else { pe with blocklist := pe.blocklist ++ [device_id] }

/-- Entry of `main.py`'s `active_devices` dict: `{'device': ..., 'mount_path': ...}`. -/
structure ActiveEntry where
  device : USBDevice
  mount_path : String
deriving DecidableEq, Repr

/-- `dict.pop(key, None)` on an insertion-ordered dict: remove the first
binding of the key, returning it and the remaining dict. -/
def popEntry : List (String × ActiveEntry) → String →
    Option ActiveEntry × List (String × ActiveEntry)
  | [], _ => (none, [])
  | (k, v) :: rest, id =>
      if k = id then (some v, rest)
      else
        let r := popEntry rest id
        (r.1, (k, v) :: r.2)

/-- The promotion gate of `main.py`'s `promote_device`:
`if active_devices.pop(device.get_id(), None) is None: return`.  The boolean
is whether the call proceeds to the authorization prompt. -/
def promote_device (active : List (String × ActiveEntry)) (device : USBDevice) :
    Bool × List (String × ActiveEntry) :=
  let r := popEntry active device.get_id
  match r.1 with
  | none => (false, r.2)
  | some _ => (true, r.2)

/-! Concrete fixtures used by scenario theorems and witnesses. -/

/-- A device carrying no vendor/product/serial data; its identifier is
`"0000:0000:NOSERIAL"`. -/
def devAnon : USBDevice := { device_path := "pci-0000:00" }

/-- Fold a list of timestamped zero-byte, non-executable activity reports
through the trust manager (each file event the auditor forwards). -/
def runActivities (tm : TrustManager) (id : String) (times : List ℚ) :
    TrustManager :=
  times.foldl (fun t now => (t.report_activity id now 0 false).2) tm

/-- Ledger holding one fresh `MONITORED` record registered at time 0. -/
def tmFresh : TrustManager :=
  TrustManager.register_device {} "d" TrustState.MONITORED 0

/-- Ledger holding one `BLOCKED` record. -/
def tmBlocked : TrustManager :=
  TrustManager.register_device {} "d" TrustState.BLOCKED 0

/-- A policy engine whose ledger holds a `DETECTED` record for `devAnon` and
whose configured default action is `ALERT`. -/
def peDetected : PolicyEngine :=
  { default_action := PolicyAction.ALERT,
    trust_manager :=
      { devices := [("0000:0000:NOSERIAL",
          DeviceTrustState.create "0000:0000:NOSERIAL" TrustState.DETECTED 0)] } }

/-- A `MONITORED` record registered at time 0 with the executable flag
latched. -/
def dExec : DeviceTrustState :=
  { DeviceTrustState.create "w" TrustState.MONITORED 0 with
    executable_detected := true }

/-- One-entry `active_devices` table for `devAnon`. -/
def activeOne : List (String × ActiveEntry) :=
  [("0000:0000:NOSERIAL", { device := devAnon, mount_path := "/mnt/usb" })]

/-! Helper lemmas. -/

/-- `evaluate` returns exactly the state it stores back into the record. -/
theorem eval_fst_eq_state (d : DeviceTrustState) (now : ℚ) :
    (d.evaluate now).1 = (d.evaluate now).2.state := by
  unfold DeviceTrustState.evaluate
  repeat' split
  all_goals simp_all

/-- Appending a binding for an absent key makes it findable. -/
theorem findDevice_append_self (l : List (String × DeviceTrustState))
    (id : String) (d : DeviceTrustState) (h : findDevice l id = none) :
    findDevice (l ++ [(id, d)]) id = some d := by
  induction l with
  | nil => simp [findDevice]
  | cons p rest ih =>
      obtain ⟨k, v⟩ := p
      by_cases hk : k = id
      · simp [findDevice, hk] at h
      · simp [findDevice, hk] at h ⊢
        exact ih h

/-- `popEntry` finds a value exactly when the key is present. -/
theorem popEntry_fst_some_iff (l : List (String × ActiveEntry)) (id : String) :
    (popEntry l id).1.isSome = true ↔ id ∈ l.map Prod.fst := by
  induction l with
  | nil => simp [popEntry]
  | cons p rest ih =>
      obtain ⟨k, v⟩ := p
      by_cases hk : k = id
      · simp [popEntry, hk]
      · have hk' : ¬id = k := fun h => hk h.symm
        simp [popEntry, hk, hk', ih]

/-- `popEntry` on an absent key returns the table unchanged. -/
theorem popEntry_none_noop (l : List (String × ActiveEntry)) (id : String)
    (h : (popEntry l id).1 = none) : (popEntry l id).2 = l := by
  induction l with
  | nil => rfl
  | cons p rest ih =>
      obtain ⟨k, v⟩ := p
      by_cases hk : k = id
      · simp [popEntry, hk] at h
      · simp [popEntry, hk] at h ⊢
        exact ih h

/-- The keys after `popEntry` are the old keys with the first occurrence of
the popped key erased. -/
theorem popEntry_keys (l : List (String × ActiveEntry)) (id : String) :
    (popEntry l id).2.map Prod.fst = (l.map Prod.fst).erase id := by
  induction l with
  | nil => simp [popEntry]
  | cons p rest ih =>
      obtain ⟨k, v⟩ := p
      by_cases hk : k = id
      · simp [popEntry, hk, List.erase_cons]
      · simp [popEntry, hk, ih, List.erase_cons]

/-- The gate's boolean is exactly whether `popEntry` removed something. -/
theorem promote_device_fst (active : List (String × ActiveEntry))
    (device : USBDevice) :
    (promote_device active device).1 = (popEntry active device.get_id).1.isSome := by
  unfold promote_device
  cases h : (popEntry active device.get_id).1 <;> simp [h]

/-- The gate passes the popped table through untouched. -/
theorem promote_device_snd (active : List (String × ActiveEntry))
    (device : USBDevice) :
    (promote_device active device).2 = (popEntry active device.get_id).2 := by
  unfold promote_device
  cases h : (popEntry active device.get_id).1 <;> simp [h]

/-- `evaluate` under promotion conditions: a `MONITORED` record past the
30-second threshold with no escalation condition is promoted. -/
theorem eval_promotes (d : DeviceTrustState) (now : ℚ)
    (hm : d.state = TrustState.MONITORED)
    (ht : now - d.first_seen > 60 * PROMOTION_TIME_MIN)
    (hx : d.executable_detected = false)
    (hw : d.window_files ≤ MAX_FILES_PER_MIN)
    (hd : d.data_transferred_mb ≤ MAX_DATA_MB) :
    d.evaluate now =
      (TrustState.AUTHORIZED, { d with state := TrustState.AUTHORIZED }) := by
  have h1 : ¬d.window_files > MAX_FILES_PER_MIN := not_lt.mpr hw
  have h2 : ¬d.data_transferred_mb > MAX_DATA_MB := not_lt.mpr hd
  simp [DeviceTrustState.evaluate, hx, h1, h2, hm, ht]

/-- The sweep's promoted identifiers are exactly the entries whose state
changes to `AUTHORIZED` (list form). -/
theorem sweep_exact (l : List (String × DeviceTrustState)) (now : ℚ) :
    (sweepList l now).2.length = l.length ∧
      (sweepList l now).1 =
        ((l.zip (sweepList l now).2).filterMap fun p =>
          if p.1.2.state ≠ TrustState.AUTHORIZED ∧
              p.2.2.state = TrustState.AUTHORIZED
          then some p.1.1 else none) := by
  induction l with
  | nil => simp [sweepList]
  | cons p rest ih =>
      obtain ⟨k, d⟩ := p
      by_cases hm : d.state = TrustState.MONITORED
      · have he := eval_fst_eq_state d now
        by_cases ha : (d.evaluate now).1 = TrustState.AUTHORIZED
        · have he' : (d.evaluate now).2.state = TrustState.AUTHORIZED :=
            he.symm.trans ha
          simp [sweepList, hm, ha, he', ih.1, ih.2]
        · have he' : ¬(d.evaluate now).2.state = TrustState.AUTHORIZED :=
            fun hh => ha (he.trans hh)
          simp [sweepList, hm, ha, he', ih.1, ih.2]
      · have hcond : ¬(d.state ≠ TrustState.AUTHORIZED ∧
            d.state = TrustState.AUTHORIZED) := fun hc => hc.1 hc.2
        simp [sweepList, hm, ih.1, ih.2, hcond]

/-- A `MONITORED` record past the threshold with no escalation condition is
promoted by the sweep: its identifier is collected and its stored state
becomes `AUTHORIZED` (list form). -/
theorem sweep_promotes (l : List (String × DeviceTrustState)) (now : ℚ)
    (id : String) (d : DeviceTrustState)
    (hf : findDevice l id = some d) (hm : d.state = TrustState.MONITORED)
    (ht : now - d.first_seen > 60 * PROMOTION_TIME_MIN)
    (hx : d.executable_detected = false)
    (hw : d.window_files ≤ MAX_FILES_PER_MIN)
    (hd : d.data_transferred_mb ≤ MAX_DATA_MB) :
    id ∈ (sweepList l now).1 ∧
      findDevice (sweepList l now).2 id =
        some { d with state := TrustState.AUTHORIZED } := by
  induction l with
  | nil => simp [findDevice] at hf
  | cons p rest ih =>
      obtain ⟨k, d0⟩ := p
      by_cases hk : k = id
      · subst hk
        simp [findDevice] at hf
        subst hf
        have he := eval_promotes d0 now hm ht hx hw hd
        simp [sweepList, hm, he, findDevice]
      · have hf' : findDevice rest id = some d := by
          simpa [findDevice, hk] using hf
        obtain ⟨ih1, ih2⟩ := ih hf'
        by_cases hm0 : d0.state = TrustState.MONITORED
        · constructor
          · simp only [sweepList, hm0, if_pos]
            split <;> simp [ih1]
          · simp [sweepList, hm0, findDevice, hk, ih2]
        · simp [sweepList, hm0, findDevice, hk, ih1, ih2]

/-! Claim theorems. -/

/-- C3: escalation is decided before promotion — a record with the executable
flag set evaluates to `SUSPICIOUS` (even a `MONITORED` record past the
promotion threshold), and no evaluation satisfying an escalation condition
(executable, window count over 10, data over 100 MB) returns `AUTHORIZED`. -/
theorem evaluate_escalation_precedence (d : DeviceTrustState) (now : ℚ) :
    (d.executable_detected = true →
        (d.evaluate now).1 = TrustState.SUSPICIOUS) ∧
      ((d.executable_detected = true ∨ d.window_files > MAX_FILES_PER_MIN ∨
          d.data_transferred_mb > MAX_DATA_MB) →
        (d.evaluate now).1 ≠ TrustState.AUTHORIZED) := by
  constructor
  · intro hx
    simp [DeviceTrustState.evaluate, hx]
  · rintro (hx | hw | hd)
    · simp [DeviceTrustState.evaluate, hx]
    · by_cases hx : d.executable_detected <;>
        simp [DeviceTrustState.evaluate, hx, hw]
    · by_cases hx : d.executable_detected
      · simp [DeviceTrustState.evaluate, hx]
      · by_cases hw : d.window_files > MAX_FILES_PER_MIN <;>
          simp [DeviceTrustState.evaluate, hx, hw, hd]

/-- Witness for C3: `dExec` is `MONITORED`, 40 s past registration (beyond
the 30 s promotion threshold), yet evaluates to `SUSPICIOUS`, not
`AUTHORIZED`. -/
theorem evaluate_escalation_precedence_witness :
    (dExec.evaluate 40).1 = TrustState.SUSPICIOUS ∧
      (dExec.evaluate 40).1 ≠ TrustState.AUTHORIZED :=
  ⟨(evaluate_escalation_precedence dExec 40).1 rfl,
   (evaluate_escalation_precedence dExec 40).2 (Or.inl rfl)⟩

/-- C4: the promotion gate proceeds to the authorization prompt exactly when
its `pop` removes the identifier from `active_devices`; on an absent
identifier it is a pure no-op; and of two successive promotion triggers for
the same identifier, exactly the first observes success. -/
theorem promote_device_exactly_once (active : List (String × ActiveEntry))
    (device : USBDevice) :
    ((promote_device active device).1 = true ↔
        device.get_id ∈ active.map Prod.fst) ∧
      (promote_device active device).2.map Prod.fst =
        (active.map Prod.fst).erase device.get_id ∧
      (device.get_id ∉ active.map Prod.fst →
        promote_device active device = (false, active)) ∧
      ((active.map Prod.fst).Nodup → device.get_id ∈ active.map Prod.fst →
        (promote_device active device).1 = true ∧
          (promote_device (promote_device active device).2 device).1 = false) := by
  have hfst := promote_device_fst active device
  have hsnd := promote_device_snd active device
  have hiff : (promote_device active device).1 = true ↔
      device.get_id ∈ active.map Prod.fst := by
    rw [hfst]; exact popEntry_fst_some_iff active device.get_id
  have hkeys : (promote_device active device).2.map Prod.fst =
      (active.map Prod.fst).erase device.get_id := by
    rw [hsnd]; exact popEntry_keys active device.get_id
  refine ⟨hiff, hkeys, ?_, ?_⟩
  · intro hnot
    have h1 : (popEntry active device.get_id).1 = none := by
      cases hpop : (popEntry active device.get_id).1 with
      | none => rfl
      | some v =>
          exact absurd ((popEntry_fst_some_iff active device.get_id).mp
            (by simp [hpop])) hnot
    have h2 := popEntry_none_noop active device.get_id h1
    simp [promote_device, h1, h2]
  · intro hnd hmem
    refine ⟨hiff.mpr hmem, ?_⟩
    have hafter : device.get_id ∉ (promote_device active device).2.map Prod.fst := by
      rw [hkeys]
      intro hc
      exact ((hnd.mem_erase_iff).mp hc).1 rfl
    have := (promote_device_fst (promote_device active device).2 device).symm ▸
      ((popEntry_fst_some_iff (promote_device active device).2
          device.get_id).not.mpr hafter)
    cases hres : (promote_device (promote_device active device).2 device).1
    · rfl
    · rw [promote_device_fst] at hres
      exact absurd ((popEntry_fst_some_iff _ _).mp hres) hafter

/-- Witness for C4: a one-entry table; the first trigger proceeds, the second
is a no-op. -/
theorem promote_device_exactly_once_witness :
    (promote_device activeOne devAnon).1 = true ∧
      (promote_device (promote_device activeOne devAnon).2 devAnon).1 = false :=
  (promote_device_exactly_once activeOne devAnon).2.2.2
    (by with_unfolding_all decide) (by with_unfolding_all decide)

/-- C7: the idle sweep returns exactly the identifiers whose records change
state to `AUTHORIZED` (same ledger length, pointwise comparison), and every
`MONITORED` record past the 30-second threshold with no escalation condition
is promoted: its identifier is returned and its state becomes `AUTHORIZED`. -/
theorem sweep_idle_promotions (tm : TrustManager) (now : ℚ) :
    ((tm.check_idle_promotions now).2.devices.length = tm.devices.length ∧
      (tm.check_idle_promotions now).1 =
        ((tm.devices.zip (tm.check_idle_promotions now).2.devices).filterMap
          fun p =>
            if p.1.2.state ≠ TrustState.AUTHORIZED ∧
                p.2.2.state = TrustState.AUTHORIZED
            then some p.1.1 else none)) ∧
      (∀ id d, findDevice tm.devices id = some d →
        d.state = TrustState.MONITORED →
        now - d.first_seen > 60 * PROMOTION_TIME_MIN →
        d.executable_detected = false →
        d.window_files ≤ MAX_FILES_PER_MIN →
        d.data_transferred_mb ≤ MAX_DATA_MB →
        id ∈ (tm.check_idle_promotions now).1 ∧
          findDevice (tm.check_idle_promotions now).2.devices id =
            some { d with state := TrustState.AUTHORIZED }) :=
  ⟨sweep_exact tm.devices now,
   fun id d hf hm ht hx hw hd =>
     sweep_promotes tm.devices now id d hf hm ht hx hw hd⟩

/-- Witness for C7: a record registered `MONITORED` at time 0, swept at 31 s,
is promoted and returned. -/
theorem sweep_idle_promotions_witness :
    "d" ∈ (tmFresh.check_idle_promotions 31).1 ∧
      findDevice (tmFresh.check_idle_promotions 31).2.devices "d" =
        some { DeviceTrustState.create "d" TrustState.MONITORED 0 with
               state := TrustState.AUTHORIZED } :=
  (sweep_idle_promotions tmFresh 31).2 "d"
    (DeviceTrustState.create "d" TrustState.MONITORED 0)
    (by with_unfolding_all decide) rfl (by with_unfolding_all decide) rfl
    (by with_unfolding_all decide) (by with_unfolding_all decide)

/-- C8: a blocklisted identifier is decided `BLOCK` before the allowlist and
before any trust lookup, for every allowlist and every ledger, and the call
returns the engine (ledger included) unchanged. -/
theorem evaluate_blocklist_precedence (pe : PolicyEngine) (device : USBDevice)
    (now : ℚ) (h : device.get_id ∈ pe.blocklist) :
    pe.evaluate device now = (PolicyAction.BLOCK, pe) := by
  simp [PolicyEngine.evaluate, h]

/-- Witness for C8: an identifier on both lists, with a ledger record, is
still blocked with nothing mutated. -/
theorem evaluate_blocklist_precedence_witness :
    devAnon.get_id ∈
        (PolicyEngine.mk ["0000:0000:NOSERIAL"] ["0000:0000:NOSERIAL"]
          PolicyAction.BLOCK tmFresh).blocklist ∧
      (PolicyEngine.mk ["0000:0000:NOSERIAL"] ["0000:0000:NOSERIAL"]
          PolicyAction.BLOCK tmFresh).evaluate devAnon 0 =
        (PolicyAction.BLOCK,
         PolicyEngine.mk ["0000:0000:NOSERIAL"] ["0000:0000:NOSERIAL"]
           PolicyAction.BLOCK tmFresh) :=
  ⟨by with_unfolding_all decide,
   evaluate_blocklist_precedence _ devAnon 0 (by with_unfolding_all decide)⟩

/-- C9: an identifier with no ledger record yields `UNAUTHORIZED` from
`get_state` and from `report_activity`, neither of which creates a record or
changes the ledger in any way. -/
theorem unknown_identifier_noop (tm : TrustManager) (id : String)
    (now size_mb : ℚ) (is_executable : Bool)
    (h : findDevice tm.devices id = none) :
    tm.get_state id = TrustState.UNAUTHORIZED ∧
      tm.report_activity id now size_mb is_executable =
        (TrustState.UNAUTHORIZED, tm) := by
  constructor
  · simp [TrustManager.get_state, h]
  · simp [TrustManager.report_activity, h]

/-- Witness for C9: an unknown identifier against a nonempty ledger. -/
theorem unknown_identifier_noop_witness :
    tmFresh.get_state "other" = TrustState.UNAUTHORIZED ∧
      tmFresh.report_activity "other" 5 1 true =
        (TrustState.UNAUTHORIZED, tmFresh) :=
  unknown_identifier_noop tmFresh "other" 5 1 true (by with_unfolding_all decide)

/-- C5: once a record is `BLOCKED`, `report_activity` returns `BLOCKED` and
leaves the whole trust manager — hence every field of the record — unchanged. -/
theorem report_activity_blocked_sticky (tm : TrustManager) (id : String)
    (now size_mb : ℚ) (is_executable : Bool) (d : DeviceTrustState)
    (hd : findDevice tm.devices id = some d)
    (hb : d.state = TrustState.BLOCKED) :
    tm.report_activity id now size_mb is_executable = (TrustState.BLOCKED, tm) := by
  simp [TrustManager.report_activity, hd, hb]

/-- Witness for C5: activity (large, executable) against a blocked record. -/
theorem report_activity_blocked_sticky_witness :
    tmBlocked.report_activity "d" 1000 500 true =
      (TrustState.BLOCKED, tmBlocked) :=
  report_activity_blocked_sticky tmBlocked "d" 1000 500 true
    (DeviceTrustState.create "d" TrustState.BLOCKED 0)
    (by with_unfolding_all decide) rfl

/-- C2: first contact — an identifier with no ledger record, on neither list,
is allowed by `evaluate`, and the call leaves a `MONITORED` record for it in
the ledger, whatever the configured default action. -/
theorem evaluate_first_contact (pe : PolicyEngine) (device : USBDevice) (now : ℚ)
    (hb : device.get_id ∉ pe.blocklist) (ha : device.get_id ∉ pe.allowlist)
    (hf : findDevice pe.trust_manager.devices device.get_id = none) :
    (pe.evaluate device now).1 = PolicyAction.ALLOW ∧
      findDevice (pe.evaluate device now).2.trust_manager.devices device.get_id =
        some (DeviceTrustState.create device.get_id TrustState.MONITORED now) ∧
      (pe.evaluate device now).2.trust_manager.get_state device.get_id =
        TrustState.MONITORED := by
  have hstate : pe.trust_manager.get_state device.get_id =
      TrustState.UNAUTHORIZED := by
    simp [TrustManager.get_state, hf]
  have hfind := findDevice_append_self pe.trust_manager.devices device.get_id
    (DeviceTrustState.create device.get_id TrustState.MONITORED now) hf
  simp [PolicyEngine.evaluate, hb, ha, hstate, TrustManager.register_device, hf,
    TrustManager.get_state, hfind]
  rfl

/-- Witness for C2: a fresh device against an empty engine whose default is
the deny-by-default `BLOCK`. -/
theorem evaluate_first_contact_witness :
    (({} : PolicyEngine).evaluate devAnon 7).1 = PolicyAction.ALLOW ∧
      findDevice (({} : PolicyEngine).evaluate devAnon 7).2.trust_manager.devices
          devAnon.get_id =
        some (DeviceTrustState.create devAnon.get_id TrustState.MONITORED 7) ∧
      (({} : PolicyEngine).evaluate devAnon 7).2.trust_manager.get_state
          devAnon.get_id = TrustState.MONITORED :=
  evaluate_first_contact {} devAnon 7 (by simp) (by simp) rfl

/-- C10: `add_to_allowlist` appends only when absent and never touches the
blocklist or the ledger; `add_to_blocklist` symmetrically; an identifier sent
through both ends up on both lists at once, and only blocklist-first ordering
makes `evaluate` block it. -/
theorem allow_block_lists_independent (pe : PolicyEngine) (device : USBDevice)
    (now : ℚ) :
    (pe.add_to_allowlist device).blocklist = pe.blocklist ∧
      (pe.add_to_allowlist device).trust_manager = pe.trust_manager ∧
      (pe.add_to_allowlist device).allowlist =
        (if device.get_id ∈ pe.allowlist then pe.allowlist
         else pe.allowlist ++ [device.get_id]) ∧
      (pe.add_to_blocklist device).allowlist = pe.allowlist ∧
      (pe.add_to_blocklist device).trust_manager = pe.trust_manager ∧
      (pe.add_to_blocklist device).blocklist =
        (if device.get_id ∈ pe.blocklist then pe.blocklist
         else pe.blocklist ++ [device.get_id]) ∧
      device.get_id ∈ ((pe.add_to_allowlist device).add_to_blocklist device).allowlist ∧
      device.get_id ∈ ((pe.add_to_allowlist device).add_to_blocklist device).blocklist ∧
      (((pe.add_to_allowlist device).add_to_blocklist device).evaluate device now).1 =
        PolicyAction.BLOCK := by
  have hmem : device.get_id ∈
      ((pe.add_to_allowlist device).add_to_blocklist device).blocklist := by
    simp only [PolicyEngine.add_to_allowlist, PolicyEngine.add_to_blocklist]
    split <;> split <;> simp_all
  refine ⟨?_, ?_, ?_, ?_, ?_, ?_, ?_, hmem, ?_⟩
  · simp only [PolicyEngine.add_to_allowlist]; split <;> rfl
  · simp only [PolicyEngine.add_to_allowlist]; split <;> rfl
  · simp only [PolicyEngine.add_to_allowlist]; split <;> simp_all
  · simp only [PolicyEngine.add_to_blocklist]; split <;> rfl
  · simp only [PolicyEngine.add_to_blocklist]; split <;> rfl
  · simp only [PolicyEngine.add_to_blocklist]; split <;> simp_all
  · simp only [PolicyEngine.add_to_blocklist, PolicyEngine.add_to_allowlist]
    split <;> split <;> simp_all
  · simp [PolicyEngine.evaluate, hmem]

/-- C1, counterexample: with a ledger record in the dead `DETECTED` state the
trust-state dispatch is not exhaustive and `evaluate` does return the
configured default action (`ALERT` here, which no explicit branch returns). -/
theorem evaluate_default_reached_on_detected :
    (peDetected.evaluate devAnon 0).1 = peDetected.default_action ∧
      peDetected.default_action = PolicyAction.ALERT ∧
      devAnon.get_id ∉ peDetected.blocklist ∧
      devAnon.get_id ∉ peDetected.allowlist := by
  with_unfolding_all decide

/-- C1, amended: for every device whose consulted trust state is not
`DETECTED`, the result of `evaluate` is independent of the configured default
action (the fallback is unreachable) and is one of the explicit `ALLOW` /
`BLOCK` outcomes. -/
theorem evaluate_default_independent (pe : PolicyEngine) (device : USBDevice)
    (now : ℚ) (a : PolicyAction)
    (h : pe.trust_manager.get_state device.get_id ≠ TrustState.DETECTED) :
    (PolicyEngine.evaluate { pe with default_action := a } device now).1 =
      (pe.evaluate device now).1 ∧
      ((pe.evaluate device now).1 = PolicyAction.ALLOW ∨
        (pe.evaluate device now).1 = PolicyAction.BLOCK) := by
  by_cases hbl : device.get_id ∈ pe.blocklist
  · simp [PolicyEngine.evaluate, hbl]
  · by_cases hal : device.get_id ∈ pe.allowlist
    · simp [PolicyEngine.evaluate, hbl, hal]
    · cases hs : pe.trust_manager.get_state device.get_id <;>
        first
        | exact absurd hs h
        | simp [PolicyEngine.evaluate, hbl, hal, hs]

/-- Witness for C1's amended theorem: an empty engine (state `UNAUTHORIZED`,
not `DETECTED`) decides the same with default `ALERT` as with default
`BLOCK`. -/
theorem evaluate_default_independent_witness :
    (PolicyEngine.evaluate
        { ({} : PolicyEngine) with default_action := PolicyAction.ALERT }
        devAnon 0).1 =
      (({} : PolicyEngine).evaluate devAnon 0).1 ∧
      ((({} : PolicyEngine).evaluate devAnon 0).1 = PolicyAction.ALLOW ∨
        (({} : PolicyEngine).evaluate devAnon 0).1 = PolicyAction.BLOCK) :=
  evaluate_default_independent {} devAnon 0 PolicyAction.ALERT
    (by with_unfolding_all decide)

/-- C6: eleven zero-byte reports inside one 60-second window drive a fresh
`MONITORED` record to `SUSPICIOUS`, while the same eleven reports spread over
three minutes with more than 60 seconds between bursts (the window resets,
it does not slide) leave it not `SUSPICIOUS`. -/
theorem window_burst_vs_spread :
    TrustManager.get_state
        (runActivities tmFresh "d" [1, 2, 3, 4, 5, 6, 7, 8, 9, 10, 11]) "d" =
      TrustState.SUSPICIOUS ∧
      TrustManager.get_state
          (runActivities tmFresh "d"
            [5, 10, 15, 20, 25, 150, 156, 162, 168, 174, 180]) "d" ≠
        TrustState.SUSPICIOUS := by
  with_unfolding_all decide

end USBSentry
